import Mathlib

/-!
Shallow embedding of the LikeBike backend (Flask route handlers over a
relational store) and proofs about its reward/ledger, authentication and
workflow behaviour.  Each database table is a list of row structures; each
route handler is a pure function from the tables it touches (plus the
request payload) to an outcome and the updated tables, translated
statement-by-statement from the Python source.
-/

namespace LikeBike

/-- Row of the `users` table (the columns the verified handlers touch). -/
structure UserRow where
  id : Nat
  username : String
  email : String
  points : Int
  experience_points : Int
  level : Int
  is_admin : Bool
deriving DecidableEq

/-- Row of the append-only `rewards` ledger.  Columns a given INSERT omits
(`source_id` or `status`, which fall back to the schema default) are `none`. -/
structure RewardRow where
  user_id : Nat
  source_type : String
  source_id : Option Nat
  points : Int
  experience_points : Int
  reward_reason : Option String
  status : Option String
deriving DecidableEq

/-- Row of `user_levels`: a level and its minimum cumulative experience. -/
structure UserLevelRow where
  level : Int
  required_exp : Int
deriving DecidableEq

/-- `SELECT ... FROM users WHERE id = uid` (first matching row). -/
def findUser (users : List UserRow) (uid : Nat) : Option UserRow :=
  users.find? (fun u => u.id == uid)

/-- `SUM(experience_points)` over the ledger rows of one user. -/
def sumLedgerExp (rewards : List RewardRow) (uid : Nat) : Int :=
  ((rewards.filter (fun r => r.user_id == uid)).map (fun r => r.experience_points)).sum

/-- `UPDATE users SET experience_points = experience_points + d WHERE id = uid`. -/
def addUserExp (users : List UserRow) (uid : Nat) (d : Int) : List UserRow :=
  users.map (fun u =>
    if u.id == uid then { u with experience_points := u.experience_points + d } else u)

/-- `UPDATE users SET points = points + p, experience_points = experience_points + e
WHERE id = uid` (the community reward update). -/
def addUserPointsExp (users : List UserRow) (uid : Nat) (p e : Int) : List UserRow :=
  users.map (fun u =>
    if u.id == uid then
      { u with points := u.points + p, experience_points := u.experience_points + e }
    else u)

/-- The ledger/balance consistency invariant of the spec: for every user the
ledger rows sum to the user's counter. -/
def ledgerConsistent (users : List UserRow) (rewards : List RewardRow) : Prop :=
  ∀ u ∈ users, sumLedgerExp rewards u.id = u.experience_points

instance (users : List UserRow) (rewards : List RewardRow) :
    Decidable (ledgerConsistent users rewards) :=
  List.decidableBAll _ users

/-- A `find?` over a list updated by an id-preserving `UPDATE ... WHERE` hits the
updated image of the row `find?` hit before the update. -/
theorem find?_map_pred {α : Type} (l : List α) (pred : α → Bool) (g : α → α)
    (hg : ∀ a, pred (g a) = pred a) :
    (l.map (fun a => if pred a then g a else a)).find? pred = (l.find? pred).map g := by
  induction l with
  | nil => rfl
  | cons a as ih =>
    by_cases h : pred a = true
    · simp [List.find?, h, hg]
    · have h' : pred a = false := by
        cases hpa : pred a
        · rfl
        · exact absurd hpa h
      simp [List.find?, h', hg, ih]

/-! ### `app/utils/auth.py` -/

/-- The claims `generate_jwt_token` embeds in a token and `decode_jwt_token`
recovers (expiry aside, which the decode models below abstract over). -/
structure JwtPayload where
  user_id : Nat
  username : Option String
  email : Option String
  is_admin : Bool
deriving DecidableEq

/-- `generate_jwt_token(user_id, username=None, email=None, is_admin=False)`:
the payload the issued token carries. -/
def generate_jwt_token (user_id : Nat) (username email : Option String)
    (is_admin : Bool) : JwtPayload :=
  ⟨user_id, username, email, is_admin⟩

/-- What `get_token_from_header` plus `decode_jwt_token` yield for a request:
no usable bearer token, a token that fails to decode (malformed or expired),
or a decoded payload. -/
inductive TokenDecode
  | missing
  | invalid
  | valid (p : JwtPayload)
deriving DecidableEq

/-- Outcome of the `admin_required` decorator: an error response produced
before the handler body, or the handler body running with the stored
`request.current_user` payload. -/
inductive GateResult
  | unauthorized401 (msg : String)
  | forbidden403 (msg : String)
  | proceed (p : JwtPayload)
deriving DecidableEq

/-- The `admin_required` decorator: token decode first (401s), then the
`X-Admin` header check (403), then the token's `is_admin` claim (403). -/
def admin_required (tok : TokenDecode) (x_admin_header : Option String) : GateResult :=
  match tok with
  | .missing => .unauthorized401 "Authorization token required"
  | .invalid => .unauthorized401 "Invalid or expired token"
  | .valid p =>
    if x_admin_header ≠ some "true" then .forbidden403 "Admin access required"
    else if !p.is_admin then .forbidden403 "Admin privileges required"
    else .proceed p

/-- The token `register_user` (POST `/users`, Kakao login) issues:
`generate_jwt_token(user_id, username, email)` — the `is_admin` argument is
left at its `False` default and the user row's `is_admin` column is never
read. -/
def register_user_token (user : UserRow) : JwtPayload :=
  generate_jwt_token user.id (some user.username) (some user.email) false

/-! ### `app/utils/responses.py` -/

/-- What a handler hands to `make_response`: `None`, a single dict, or a list. -/
inductive HandlerData (α : Type)
  | none
  | single (a : α)
  | list (l : List α)
deriving DecidableEq

/-- The branch ladder of `make_response` that shapes `data`. -/
def wrapData {α : Type} : HandlerData α → List α
  | .none => []
  | .single a => [a]
  | .list l => l

/-- `http.HTTPStatus(code).phrase` for the status codes the app uses
(`HTTPStatus` raises on a code outside the standard table, hence `Option`). -/
def statusPhrase : Nat → Option String
  | 200 => some "OK"
  | 201 => some "Created"
  | 400 => some "Bad Request"
  | 401 => some "Unauthorized"
  | 403 => some "Forbidden"
  | 404 => some "Not Found"
  | 500 => some "Internal Server Error"
  | 502 => some "Bad Gateway"
  | _ => none

/-- The uniform `{code, message, data}` body `make_response` serializes. -/
structure Envelope (α : Type) where
  code : Nat
  message : String
  data : List α
deriving DecidableEq

/-- An HTTP response of this app: either the `jsonify`-ed envelope with its
status code, or a raw `flask.Response` (body rows and mimetype), which the
CSV export endpoint returns. -/
inductive HttpResponse (α : Type)
  | json (body : Envelope α) (status : Nat)
  | raw (rows : List (List String)) (mimetype : String)
deriving DecidableEq

/-- Whether a response is the standardized JSON envelope. -/
def isEnvelope {α : Type} : HttpResponse α → Bool
  | .json _ _ => true
  | .raw _ _ => false

/-- `make_response(data, code)` from `app/utils/responses.py`. -/
def make_response {α : Type} (data : HandlerData α) (code : Nat) : HttpResponse α :=
  .json ⟨code, (statusPhrase code).getD "", wrapData data⟩ code

/-! ### `app/routes/quizzes.py` — `attempt_quiz` -/

/-- Row of `quizzes` (the column `attempt_quiz` reads). -/
structure QuizRow where
  id : Nat
  correct_answer : String
deriving DecidableEq

/-- Row of `user_quiz_attempts`. -/
structure QuizAttemptRow where
  user_id : Nat
  quiz_id : Nat
  is_correct : Bool
deriving DecidableEq

/-- The tables `attempt_quiz` touches. -/
structure QuizDB where
  quizzes : List QuizRow
  attempts : List QuizAttemptRow
  users : List UserRow
  rewards : List RewardRow
deriving DecidableEq

/-- Response payload of `attempt_quiz`. -/
inductive AttemptOutcome
  | badRequest (msg : String)
  | notFound (msg : String)
  | ok (is_correct : Bool) (reward_given : Bool) (experience_earned : Option Int)
deriving DecidableEq

/-- The prior-correct-attempt query of `attempt_quiz`
(`SELECT id FROM user_quiz_attempts WHERE user_id = ... AND quiz_id = ... AND
is_correct = true`, fetched as a truthiness test). -/
def alreadyCorrect (attempts : List QuizAttemptRow) (uid qid : Nat) : Bool :=
  attempts.any (fun a => a.user_id == uid && a.quiz_id == qid && a.is_correct)

/-- `attempt_quiz(quiz_id)` for the authenticated user `uid`; `answer` is the
request JSON's `answer` field (absent or empty is falsy → 400). -/
def attempt_quiz (db : QuizDB) (uid qid : Nat) (answer : Option String) :
    AttemptOutcome × QuizDB :=
  if answer.getD "" = "" then (.badRequest "answer required", db)
  else
    match db.quizzes.find? (fun q => q.id == qid) with
    | Option.none => (.notFound "quiz not found", db)
    | some quiz =>
      let already_correct := alreadyCorrect db.attempts uid qid
      let is_correct := answer.getD "" == quiz.correct_answer
      let db1 : QuizDB := { db with attempts := db.attempts ++ [⟨uid, qid, is_correct⟩] }
      if is_correct && !already_correct then
        let exp : Int := 10
        let db2 : QuizDB := { db1 with
          users := addUserExp db1.users uid exp,
          rewards := db1.rewards ++
            [⟨uid, "quiz", some qid, 0, exp, some "자전거 안전 퀴즈", Option.none⟩] }
        (.ok is_correct true (some exp), db2)
      else
        (.ok is_correct false Option.none, db1)

/-! ### `app/routes/bike_logs.py` — `create_bike_log`, `verify_bike_log` -/

/-- Row of `bike_usage_logs` (the columns the verification workflow touches;
timestamp columns are outside the model). -/
structure BikeLogRow where
  id : Nat
  user_id : Nat
  description : String
  bike_photo_url : String
  safety_gear_photo_url : String
  verification_status : String
  verified_by_admin_id : Option Nat
  admin_notes : Option String
  points_awarded : Option Int
deriving DecidableEq

/-- Response payload of `verify_bike_log`. -/
inductive VerifyOutcome
  | badRequest (msg : String)
  | notFound (msg : String)
  | ok (updated : BikeLogRow)
deriving DecidableEq

/-- The tables `verify_bike_log` touches. -/
structure BikeDB where
  bike_logs : List BikeLogRow
  users : List UserRow
  rewards : List RewardRow
deriving DecidableEq

/-- `verify_bike_log(log_id)` by admin `admin_id`; `status` and `admin_notes`
come from the request JSON (`admin_notes` defaults to `""`).  The awarded
points are the constant `10`. -/
def verify_bike_log (db : BikeDB) (admin_id log_id : Nat) (status : Option String)
    (admin_notes : String) : VerifyOutcome × BikeDB :=
  let points : Int := 10
  if status ≠ some "verified" ∧ status ≠ some "rejected" then
    (.badRequest "status must be 'verified' or 'rejected'", db)
  else
    match db.bike_logs.find? (fun l => l.id == log_id) with
    | Option.none => (.notFound "bike log not found", db)
    | some log =>
      if log.verification_status ≠ "pending" then
        (.badRequest "bike log already processed", db)
      else
        let s := status.getD ""
        let updated : BikeLogRow := { log with
          verification_status := s,
          verified_by_admin_id := some admin_id,
          admin_notes := some admin_notes,
          points_awarded := some points }
        let logs1 := db.bike_logs.map (fun l => if l.id == log_id then updated else l)
        if s = "verified" ∧ 0 < points then
          (.ok updated,
            { bike_logs := logs1,
              users := addUserExp db.users log.user_id points,
              rewards := db.rewards ++
                [⟨log.user_id, "bike_usage", some log_id, 0, points,
                  some "자전거 활동", some "completed"⟩] })
        else
          (.ok updated, { db with bike_logs := logs1 })

/-- Response payload of `create_bike_log`. -/
inductive CreateLogOutcome
  | badRequest (msg : String)
  | notFound (msg : String)
  | serverError (msg : String)
  | created (log : BikeLogRow)
deriving DecidableEq

/-- `create_bike_log` for user `uid`.  `form_description` is
`request.form.get("description")` (a JSON request body leaves the form empty,
so it is `none` there); `has_bike_photo`/`has_safety_photo` mirror the
`request.files` membership tests; `todays_count` is the
`created_at::date = CURRENT_DATE` count; the two upload results model
`upload_file_to_ncp`; `new_id` is the id the INSERT's RETURNING reports. -/
def create_bike_log (db : BikeDB) (uid : Nat) (form_description : Option String)
    (has_bike_photo has_safety_photo : Bool) (todays_count : Nat)
    (upload_bike upload_safety : Except String String) (new_id : Nat) :
    CreateLogOutcome × BikeDB :=
  if form_description.getD "" = "" then (.badRequest "description required", db)
  else if !(has_bike_photo && has_safety_photo) then
    (.badRequest "bike_photo and safety_gear_photo required", db)
  else if 1 ≤ todays_count then (.badRequest "daily bike log limit reached", db)
  else
    match upload_bike with
    | .error e => (.serverError ("자전거 사진 업로드 실패: " ++ e), db)
    | .ok bike_url =>
      match upload_safety with
      | .error e => (.serverError ("안전 장비 사진 업로드 실패: " ++ e), db)
      | .ok safety_url =>
        match findUser db.users uid with
        | Option.none => (.notFound "user not found", db)
        | some _ =>
          let log : BikeLogRow :=
            ⟨new_id, uid, form_description.getD "", bike_url, safety_url,
              "pending", Option.none, Option.none, Option.none⟩
          (.created log, { db with bike_logs := db.bike_logs ++ [log] })

/-- The keys of the dict `create_bike_log` returns on 201: exactly the
columns of the INSERT's RETURNING clause. -/
def create_bike_log_response_keys : List String :=
  ["id", "user_id", "description", "bike_photo_url", "safety_gear_photo_url",
   "verification_status", "started_at", "created_at"]

/-! ### `app/routes/users.py` — `update_user_score`, `update_user_level` -/

/-- Response payload of `update_user_score`. -/
inductive ScoreOutcome
  | notFound (msg : String)
  | ok (experience_points : Int)
deriving DecidableEq

/-- `update_user_score` (PUT `/users/score`) for user `uid`: the UPDATE uses
`GREATEST(0, experience_points + delta)`, and a ledger row carrying the raw
`delta` is inserted only when `delta > 0`. -/
def update_user_score (users : List UserRow) (rewards : List RewardRow) (uid : Nat)
    (exp_change : Int) (reward_reason : Option String) :
    ScoreOutcome × List UserRow × List RewardRow :=
  match findUser users uid with
  | Option.none => (.notFound "User not found", users, rewards)
  | some u =>
    let users1 := users.map (fun v =>
      if v.id == uid then
        { v with experience_points := max 0 (v.experience_points + exp_change) }
      else v)
    let rewards1 :=
      if 0 < exp_change then
        rewards ++ [⟨uid, "score_update", Option.none, 0, exp_change,
          reward_reason, some "completed"⟩]
      else rewards
    (.ok (max 0 (u.experience_points + exp_change)), users1, rewards1)

/-- `SELECT level FROM user_levels WHERE required_exp <= exp ORDER BY level DESC
LIMIT 1`. -/
def levelFor (levels : List UserLevelRow) (exp : Int) : Option Int :=
  ((levels.filter (fun l => decide (l.required_exp ≤ exp))).map (fun l => l.level)).max?

/-- Response payload of `update_user_level`. -/
inductive LevelOutcome
  | notFound (msg : String)
  | ok (level : Int) (experience_points : Int) (level_up : Bool)
deriving DecidableEq

/-- `update_user_level` (PUT `/users/level`) for user `uid`: stores
`experience_points + delta` (no clamping) together with the recomputed level
(`1` when no threshold row qualifies). -/
def update_user_level (users : List UserRow) (levels : List UserLevelRow) (uid : Nat)
    (exp_delta : Int) : LevelOutcome × List UserRow :=
  match findUser users uid with
  | Option.none => (.notFound "user not found", users)
  | some u =>
    let new_exp := u.experience_points + exp_delta
    let new_level := (levelFor levels new_exp).getD 1
    let users1 := users.map (fun v =>
      if v.id == uid then { v with experience_points := new_exp, level := new_level }
      else v)
    (.ok new_level new_exp (decide (u.level < new_level)), users1)

/-! ### `app/routes/community.py` — `create_comment`, `toggle_like` -/

/-- Row of `community_posts` (the columns the modelled handlers touch). -/
structure PostRow where
  id : Nat
  user_id : Nat
  title : String
  content : String
  post_type : String
  likes_count : Int
  comments_count : Int
deriving DecidableEq

/-- Row of `post_comments`. -/
structure CommentRow where
  post_id : Nat
  user_id : Nat
  content : String
  parent_comment_id : Option Nat
deriving DecidableEq

/-- Row of the `post_likes` join table. -/
structure LikeRow where
  post_id : Nat
  user_id : Nat
deriving DecidableEq

/-- The tables the community handlers touch. -/
structure CommunityDB where
  posts : List PostRow
  comments : List CommentRow
  likes : List LikeRow
  users : List UserRow
  rewards : List RewardRow
deriving DecidableEq

/-- Response payload of `create_comment`. -/
inductive CommentOutcome
  | badRequest (msg : String)
  | notFound (msg : String)
  | created (c : CommentRow)
deriving DecidableEq

/-- `create_comment(post_id)` by user `uid`: inserts the comment, bumps the
post's `comments_count`, and adds `points = 1, exp = 1` to the user — the
source inserts no `rewards` row on this path. -/
def create_comment (db : CommunityDB) (uid pid : Nat) (content : Option String)
    (parent_comment_id : Option Nat) : CommentOutcome × CommunityDB :=
  if content.getD "" = "" then (.badRequest "content required", db)
  else
    match db.posts.find? (fun p => p.id == pid) with
    | Option.none => (.notFound "post not found", db)
    | some _ =>
      let c : CommentRow := ⟨pid, uid, content.getD "", parent_comment_id⟩
      let points : Int := 1
      let exp : Int := 1
      (.created c,
        { db with
          comments := db.comments ++ [c],
          posts := db.posts.map (fun p =>
            if p.id == pid then { p with comments_count := p.comments_count + 1 } else p),
          users := addUserPointsExp db.users uid points exp })

/-- Number of `post_likes` rows of one `(user, post)` pair. -/
def likeCount (likes : List LikeRow) (uid pid : Nat) : Nat :=
  (likes.filter (fun l => l.post_id == pid && l.user_id == uid)).length

/-- `toggle_like(post_id)` by user `uid`: deletes the pair's rows and
decrements `likes_count`, or inserts the pair and increments; then re-reads
the post's `likes_count` (`none` models the `fetchone()` crash on a missing
post). -/
def toggle_like (db : CommunityDB) (uid pid : Nat) :
    Option (Bool × Int) × CommunityDB :=
  let existing := db.likes.any (fun l => l.post_id == pid && l.user_id == uid)
  let likes1 :=
    if existing then db.likes.filter (fun l => !(l.post_id == pid && l.user_id == uid))
    else db.likes ++ [⟨pid, uid⟩]
  let d : Int := if existing then -1 else 1
  let posts1 := db.posts.map (fun p =>
    if p.id == pid then { p with likes_count := p.likes_count + d } else p)
  let db1 : CommunityDB := { db with likes := likes1, posts := posts1 }
  ((posts1.find? (fun p => p.id == pid)).map (fun p => (!existing, p.likes_count)), db1)

/-! ### `app/routes/recommendations.py` -/

/-- Row of `course_recommendations`.  `in_current_week` abstracts the SQL
predicate `created_at >= date_trunc('week', CURRENT_DATE)` row by row. -/
structure CourseRecRow where
  user_id : Nat
  location_name : String
  photo_url : String
  review : String
  status : String
  in_current_week : Bool
deriving DecidableEq

/-- The COUNT query shared by `create_course_recommendation` and
`week_course_recommendation_count`: this week's rows of the user whose
status is not `'rejected'`. -/
def week_course_recommendation_count (recs : List CourseRecRow) (uid : Nat) : Nat :=
  (recs.filter (fun r =>
    r.user_id == uid && r.in_current_week && !(r.status == "rejected"))).length

/-- Response payload of `create_course_recommendation`. -/
inductive CreateRecOutcome
  | badRequest (msg : String)
  | serverError (msg : String)
  | created (rec : CourseRecRow)
deriving DecidableEq

/-- `create_course_recommendation` for user `uid`: form fields, photo
presence, the weekly admission check, the upload, then the INSERT (status
defaults to `'pending'`; the new row is created inside the current week). -/
def create_course_recommendation (recs : List CourseRecRow) (uid : Nat)
    (location_name review : Option String) (photo_present : Bool)
    (upload_result : Except String String) : CreateRecOutcome × List CourseRecRow :=
  if location_name.getD "" = "" ∨ review.getD "" = "" then
    (.badRequest "location_name and review required", recs)
  else if !photo_present then (.badRequest "photo required", recs)
  else if 2 ≤ week_course_recommendation_count recs uid then
    (.badRequest "weekly course recommendation limit reached", recs)
  else
    match upload_result with
    | .error e => (.serverError ("photo upload failed: " ++ e), recs)
    | .ok url =>
      let row : CourseRecRow :=
        ⟨uid, location_name.getD "", url, review.getD "", "pending", true⟩
      (.created row, recs ++ [row])

/-- A row of the admin CSV export join (timestamps kept as opaque strings). -/
structure ExportRow where
  id : Nat
  username : String
  location_name : String
  photo_url : String
  review : String
  status : String
  points_awarded : Int
  reviewed_at : String
  created_at : String
deriving DecidableEq

/-- The header row `export_course_recommendations` writes. -/
def csvHeader : List String :=
  ["id", "username", "location_name", "photo_url", "review", "status",
   "points_awarded", "reviewed_at", "created_at"]

/-- The cells `writer.writerow` emits for one joined row. -/
def exportRowFields (r : ExportRow) : List String :=
  [toString r.id, r.username, r.location_name, r.photo_url, r.review, r.status,
   toString r.points_awarded, r.reviewed_at, r.created_at]

/-- `export_course_recommendations` (GET `/admin/course-recommendations/export`):
a 400 envelope on a bad `status` filter, otherwise a raw `flask.Response`
carrying CSV with mimetype `text/csv` — not the JSON envelope.  An absent or
empty `status` is falsy, selecting both final statuses. -/
def export_course_recommendations (status : Option String) (recs : List ExportRow) :
    HttpResponse String :=
  let sv := status.getD ""
  if sv ≠ "" ∧ sv ≠ "verified" ∧ sv ≠ "rejected" then
    make_response (.single "status must be 'verified' or 'rejected'") 400
  else if sv ≠ "" then
    .raw (csvHeader :: (recs.filter (fun r => r.status == sv)).map exportRowFields)
      "text/csv"
  else
    .raw (csvHeader ::
      (recs.filter (fun r => r.status == "verified" || r.status == "rejected")).map
        exportRowFields) "text/csv"

/-- `findUser` after the experience UPDATE sees the updated image of the row
it saw before. -/
theorem findUser_addUserExp (users : List UserRow) (uid : Nat) (d : Int) :
    findUser (addUserExp users uid d) uid = (findUser users uid).map
      (fun u => { u with experience_points := u.experience_points + d }) := by
  unfold findUser addUserExp
  exact find?_map_pred users _ _ (fun a => rfl)

/-- A list none of whose elements satisfies `pred` is unchanged by deleting
the `pred` rows. -/
theorem filter_not_of_any_eq_false {α : Type} (l : List α) (pred : α → Bool)
    (h : l.any pred = false) : l.filter (fun a => !pred a) = l := by
  induction l with
  | nil => rfl
  | cons a as ih =>
    simp only [List.any_cons, Bool.or_eq_false_iff] at h
    simp [List.filter_cons, h.1, ih h.2]

/-- A list none of whose elements satisfies `pred` has no `pred` rows. -/
theorem filter_eq_nil_of_any_eq_false {α : Type} (l : List α) (pred : α → Bool)
    (h : l.any pred = false) : l.filter pred = [] := by
  induction l with
  | nil => rfl
  | cons a as ih =>
    simp only [List.any_cons, Bool.or_eq_false_iff] at h
    simp [List.filter_cons, h.1, ih h.2]

/-- Two successive `likes_count` UPDATEs whose deltas cancel restore the
posts table. -/
theorem posts_update_roundtrip (posts : List PostRow) (pid : Nat) (d e : Int)
    (hde : d + e = 0) :
    ((posts.map (fun p => if p.id == pid then
        { p with likes_count := p.likes_count + d } else p)).map
      (fun p => if p.id == pid then
        { p with likes_count := p.likes_count + e } else p)) = posts := by
  induction posts with
  | nil => rfl
  | cons p ps ih =>
    by_cases h : (p.id == pid) = true
    · have hlc : p.likes_count + d + e = p.likes_count := by
        rw [add_assoc, hde, add_zero]
      simp only [List.map_cons, if_pos h, ih]
      rw [hlc]
    · simp only [List.map_cons, if_neg h, ih]

/-! ### Claim theorems -/

/-- A community state with one post, one user whose counter matches the (empty)
ledger, and no comments: the input on which comment creation breaks the
ledger/balance invariant. -/
def commentDemoDB : CommunityDB :=
  ⟨[⟨1, 1, "자전거 추천 경로", "한강공원 라이딩 코스 추천합니다!", "route_share", 0, 0⟩],
   [], [], [⟨1, "alice", "alice@example.com", 0, 0, 1, false⟩], []⟩

/-- C1: the ledger/balance consistency invariant fails on the code:
`create_comment` adds `+1` to the user's `experience_points` (and `+1` point)
but inserts no `rewards` row, so starting from a consistent state
(`sum(ledger) = experience_points = 0`) one comment leaves the counter at `1`
with a ledger sum of `0` — no operation-specific ledger row with the same
delta is appended. -/
theorem create_comment_breaks_ledger_invariant :
    ledgerConsistent commentDemoDB.users commentDemoDB.rewards ∧
    (create_comment commentDemoDB 1 1 (some "좋은 정보 감사합니다!") Option.none).1 =
      .created ⟨1, 1, "좋은 정보 감사합니다!", Option.none⟩ ∧
    findUser (create_comment commentDemoDB 1 1 (some "좋은 정보 감사합니다!") Option.none).2.users 1 =
      some ⟨1, "alice", "alice@example.com", 1, 1, 1, false⟩ ∧
    (create_comment commentDemoDB 1 1 (some "좋은 정보 감사합니다!") Option.none).2.rewards = [] ∧
    ¬ ledgerConsistent
        (create_comment commentDemoDB 1 1 (some "좋은 정보 감사합니다!") Option.none).2.users
        (create_comment commentDemoDB 1 1 (some "좋은 정보 감사합니다!") Option.none).2.rewards := by
  refine ⟨by decide, rfl, by decide, rfl, ?_⟩
  intro h
  have := h ⟨1, "alice", "alice@example.com", 1, 1, 1, false⟩ (by decide)
  simp [sumLedgerExp, create_comment, commentDemoDB] at this

/-- C4 counterexample: `update_user_level` does not clamp.  A user with
`experience_points = 0` sent `experience_points = -5` through PUT
`/users/level` ends up with a stored counter of `-5`, not
`max(0, 0 + (-5)) = 0`. -/
theorem level_update_stores_negative :
    (update_user_level [⟨1, "alice", "alice@example.com", 0, 0, 1, false⟩] [⟨1, 0⟩] 1 (-5)).1
      = .ok 1 (-5) false ∧
    findUser
      (update_user_level [⟨1, "alice", "alice@example.com", 0, 0, 1, false⟩] [⟨1, 0⟩] 1 (-5)).2 1
      = some ⟨1, "alice", "alice@example.com", 0, -5, 1, false⟩ ∧
    ((-5 : Int) = max 0 ((0 : Int) + (-5))) = False := by
  refine ⟨by decide, by decide, by decide⟩

/-- C7 counterexample: not every response of the app is the
`{code, message, data}` JSON envelope — the admin CSV export endpoint
returns a raw `text/csv` response. -/
theorem csv_export_escapes_envelope :
    isEnvelope (export_course_recommendations Option.none []) = false ∧
    export_course_recommendations Option.none [] = .raw [csvHeader] "text/csv" := by
  exact ⟨rfl, rfl⟩

/-- C8: posting a bike log with a JSON body carrying `distance` (as the
repository's own `test_community.py::test_user_stats` does) is answered with
400 `description required`, because the handler reads only multipart form
fields; and even a successful multipart creation returns the inserted row's
columns — there is no `points_earned` or `experience_earned` field and no
reward formula in `create_bike_log`. -/
theorem bike_log_create_has_no_reward_fields :
    (create_bike_log ⟨[], [⟨1, "alice", "alice@example.com", 0, 0, 1, false⟩], []⟩ 1
        Option.none true true 0 (.ok "u1") (.ok "u2") 1).1 =
      .badRequest "description required" ∧
    (create_bike_log ⟨[], [⟨1, "alice", "alice@example.com", 0, 0, 1, false⟩], []⟩ 1
        (some "test ride 1") true true 0 (.ok "u1") (.ok "u2") 1).1 =
      .created ⟨1, 1, "test ride 1", "u1", "u2", "pending",
        Option.none, Option.none, Option.none⟩ ∧
    "points_earned" ∉ create_bike_log_response_keys ∧
    "experience_earned" ∉ create_bike_log_response_keys := by
  refine ⟨by decide, by decide, by decide, by decide⟩

/-- C10: the token issued by the registration/login endpoint is generated
without the admin flag, so its `is_admin` claim is `false` whatever the user
row's `is_admin` column holds, and the admin gate answers 403
`Admin privileges required` to it even with the `X-Admin: true` header. -/
theorem register_token_never_passes_admin_gate (u : UserRow) :
    (register_user_token u).is_admin = false ∧
    admin_required (.valid (register_user_token u)) (some "true") =
      .forbidden403 "Admin privileges required" := by
  constructor
  · rfl
  · simp [admin_required, register_user_token, generate_jwt_token]

/-- Closed witness for `register_token_never_passes_admin_gate` at a
database-flagged admin user: the stored `is_admin = true` column does not
reach the token. -/
theorem register_token_never_passes_admin_gate_witness :
    admin_required (.valid (register_user_token
        ⟨3, "root", "root@example.com", 0, 0, 1, true⟩)) (some "true") =
      .forbidden403 "Admin privileges required" :=
  (register_token_never_passes_admin_gate
    ⟨3, "root", "root@example.com", 0, 0, 1, true⟩).2

/-- C6: the admin gate is fail-closed and needs both signals — a missing
token gives 401, an undecodable token gives 401, a valid token without
`X-Admin: true` gives 403, a valid token with the header but without the
embedded `is_admin` claim gives 403, and the handler body runs exactly when
the token decodes, the header equals `true`, and the claim is set. -/
theorem admin_gate_dual_signal :
    (∀ hdr, admin_required .missing hdr = .unauthorized401 "Authorization token required")
    ∧ (∀ hdr, admin_required .invalid hdr = .unauthorized401 "Invalid or expired token")
    ∧ (∀ p hdr, hdr ≠ some "true" →
        admin_required (.valid p) hdr = .forbidden403 "Admin access required")
    ∧ (∀ p, p.is_admin = false →
        admin_required (.valid p) (some "true") = .forbidden403 "Admin privileges required")
    ∧ (∀ p, p.is_admin = true →
        admin_required (.valid p) (some "true") = .proceed p)
    ∧ (∀ tok hdr p, admin_required tok hdr = .proceed p →
        tok = .valid p ∧ p.is_admin = true ∧ hdr = some "true") := by
  refine ⟨fun hdr => rfl, fun hdr => rfl, ?_, ?_, ?_, ?_⟩
  · intro p hdr h
    simp [admin_required, h]
  · intro p h
    simp [admin_required, h]
  · intro p h
    simp [admin_required, h]
  · intro tok hdr p h
    cases tok with
    | missing => simp [admin_required] at h
    | invalid => simp [admin_required] at h
    | valid q =>
      by_cases hh : hdr = some "true"
      · subst hh
        by_cases ha : q.is_admin
        · simp [admin_required, ha] at h
          exact ⟨by rw [h], by rw [← h]; exact ha, rfl⟩
        · simp [admin_required, Bool.not_eq_true] at ha
          simp [admin_required, ha] at h
      · simp [admin_required, hh] at h

/-- Closed witness for `admin_gate_dual_signal` at concrete payloads and
headers. -/
theorem admin_gate_dual_signal_witness :
    admin_required (.valid ⟨1, some "alice", some "alice@example.com", false⟩)
        Option.none = .forbidden403 "Admin access required" ∧
    admin_required (.valid ⟨1, some "alice", some "alice@example.com", false⟩)
        (some "true") = .forbidden403 "Admin privileges required" ∧
    admin_required (.valid ⟨2, some "root", some "root@example.com", true⟩)
        (some "true") = .proceed ⟨2, some "root", some "root@example.com", true⟩ :=
  ⟨admin_gate_dual_signal.2.2.1 ⟨1, some "alice", some "alice@example.com", false⟩
      Option.none (by decide),
   admin_gate_dual_signal.2.2.2.1 ⟨1, some "alice", some "alice@example.com", false⟩ rfl,
   admin_gate_dual_signal.2.2.2.2.1 ⟨2, some "root", some "root@example.com", true⟩ rfl⟩

/-- C2: submitting the canonical answer to a quiz the user has already
solved records the new attempt (as correct), answers
`is_correct = true, reward_given = false` with no `experience_earned`
field, and leaves both the users table and the rewards ledger untouched. -/
theorem quiz_second_correct_attempt_unrewarded (db : QuizDB) (uid qid : Nat)
    (quiz : QuizRow) (ans : String)
    (hq : db.quizzes.find? (fun q => q.id == qid) = some quiz)
    (hans : ans = quiz.correct_answer) (hne : ans ≠ "")
    (hprior : alreadyCorrect db.attempts uid qid = true) :
    (attempt_quiz db uid qid (some ans)).1 = .ok true false Option.none ∧
    (attempt_quiz db uid qid (some ans)).2.attempts = db.attempts ++ [⟨uid, qid, true⟩] ∧
    (attempt_quiz db uid qid (some ans)).2.users = db.users ∧
    (attempt_quiz db uid qid (some ans)).2.rewards = db.rewards := by
  have hc : (ans == quiz.correct_answer) = true := by
    rw [hans]
    exact beq_self_eq_true _
  simp [attempt_quiz, hne, hq, hprior, hc]

/-- Closed witness for `quiz_second_correct_attempt_unrewarded`: a user who
already solved quiz 1 submits the canonical answer again. -/
theorem quiz_second_correct_attempt_unrewarded_witness :
    (attempt_quiz ⟨[⟨1, "정답"⟩], [⟨1, 1, true⟩],
        [⟨1, "alice", "alice@example.com", 0, 10, 1, false⟩],
        [⟨1, "quiz", some 1, 0, 10, some "자전거 안전 퀴즈", Option.none⟩]⟩
      1 1 (some "정답")).1 = .ok true false Option.none ∧
    (attempt_quiz ⟨[⟨1, "정답"⟩], [⟨1, 1, true⟩],
        [⟨1, "alice", "alice@example.com", 0, 10, 1, false⟩],
        [⟨1, "quiz", some 1, 0, 10, some "자전거 안전 퀴즈", Option.none⟩]⟩
      1 1 (some "정답")).2.users = [⟨1, "alice", "alice@example.com", 0, 10, 1, false⟩] :=
  ⟨(quiz_second_correct_attempt_unrewarded _ 1 1 ⟨1, "정답"⟩ "정답"
      (by decide) rfl (by decide) (by decide)).1,
   (quiz_second_correct_attempt_unrewarded _ 1 1 ⟨1, "정답"⟩ "정답"
      (by decide) rfl (by decide) (by decide)).2.2.1⟩

/-- C5: with a well-formed submission (both fields, a photo, a successful
upload), creation is refused with 400 and no insert exactly when the user
already has two or more non-rejected rows in the current week; below the cap
the pending row is inserted — so rejected rows never count. -/
theorem weekly_recommendation_cap (recs : List CourseRecRow) (uid : Nat)
    (ln rv url : String) (hln : ln ≠ "") (hrv : rv ≠ "") :
    (2 ≤ week_course_recommendation_count recs uid →
      create_course_recommendation recs uid (some ln) (some rv) true (.ok url) =
        (.badRequest "weekly course recommendation limit reached", recs)) ∧
    (week_course_recommendation_count recs uid < 2 →
      create_course_recommendation recs uid (some ln) (some rv) true (.ok url) =
        (.created ⟨uid, ln, url, rv, "pending", true⟩,
          recs ++ [⟨uid, ln, url, rv, "pending", true⟩])) := by
  constructor
  · intro hcap
    simp [create_course_recommendation, hln, hrv, hcap]
  · intro hbelow
    simp [create_course_recommendation, hln, hrv, Nat.not_le.mpr hbelow]

/-- Closed witness for `weekly_recommendation_cap`: a user with two rows this
week of which one is rejected (count 1) may still submit, while a user with
two pending rows this week (count 2) is refused. -/
theorem weekly_recommendation_cap_witness :
    create_course_recommendation
        [⟨1, "한강", "p1", "좋아요", "pending", true⟩,
         ⟨1, "남산", "p2", "별로", "rejected", true⟩]
        1 (some "북악") (some "멋진 코스") true (.ok "p3") =
      (.created ⟨1, "북악", "p3", "멋진 코스", "pending", true⟩,
        [⟨1, "한강", "p1", "좋아요", "pending", true⟩,
         ⟨1, "남산", "p2", "별로", "rejected", true⟩,
         ⟨1, "북악", "p3", "멋진 코스", "pending", true⟩]) ∧
    create_course_recommendation
        [⟨1, "한강", "p1", "좋아요", "pending", true⟩,
         ⟨1, "남산", "p2", "별로", "verified", true⟩]
        1 (some "북악") (some "멋진 코스") true (.ok "p3") =
      (.badRequest "weekly course recommendation limit reached",
        [⟨1, "한강", "p1", "좋아요", "pending", true⟩,
         ⟨1, "남산", "p2", "별로", "verified", true⟩]) :=
  ⟨(weekly_recommendation_cap _ 1 "북악" "멋진 코스" "p3"
      (by decide) (by decide)).2 (by decide),
   (weekly_recommendation_cap _ 1 "북악" "멋진 코스" "p3"
      (by decide) (by decide)).1 (by decide)⟩

/-- C3: verifying a pending bike log awards the owner exactly 10 experience
points and appends exactly one ledger row with `source_type = "bike_usage"`
and `experience_points = 10`; a verify call on a log that is no longer
pending answers 400 `bike log already processed` and changes nothing. -/
theorem bike_verify_rewards_once (db : BikeDB) (admin_id log_id : Nat)
    (log : BikeLogRow) (u : UserRow) (notes : String) :
    (db.bike_logs.find? (fun l => l.id == log_id) = some log →
      log.verification_status = "pending" →
      findUser db.users log.user_id = some u →
      (verify_bike_log db admin_id log_id (some "verified") notes).1 =
        .ok { log with verification_status := "verified",
                       verified_by_admin_id := some admin_id,
                       admin_notes := some notes,
                       points_awarded := some 10 } ∧
      findUser (verify_bike_log db admin_id log_id (some "verified") notes).2.users
          log.user_id =
        some { u with experience_points := u.experience_points + 10 } ∧
      (verify_bike_log db admin_id log_id (some "verified") notes).2.rewards =
        db.rewards ++ [⟨log.user_id, "bike_usage", some log_id, 0, 10,
          some "자전거 활동", some "completed"⟩]) ∧
    (∀ status, status = some "verified" ∨ status = some "rejected" →
      db.bike_logs.find? (fun l => l.id == log_id) = some log →
      log.verification_status ≠ "pending" →
      verify_bike_log db admin_id log_id status notes =
        (.badRequest "bike log already processed", db)) := by
  constructor
  · intro hf hp hu
    simp [verify_bike_log, hf, hp, findUser_addUserExp, hu]
  · intro status hs hf hp
    rcases hs with h | h <;> subst h <;> simp [verify_bike_log, hf, hp]

/-- Closed witness for `bike_verify_rewards_once`: verifying the pending
log 5 of user 1 grants the reward; re-verifying it (now `"verified"`)
answers 400 and leaves the state alone. -/
theorem bike_verify_rewards_once_witness :
    (verify_bike_log
        ⟨[⟨5, 1, "한강 라이딩", "b", "s", "pending", Option.none, Option.none, Option.none⟩],
         [⟨1, "alice", "alice@example.com", 0, 0, 1, false⟩], []⟩
        9 5 (some "verified") "안전 장비 착용 확인됨").1 =
      .ok ⟨5, 1, "한강 라이딩", "b", "s", "verified", some 9,
        some "안전 장비 착용 확인됨", some 10⟩ ∧
    findUser (verify_bike_log
        ⟨[⟨5, 1, "한강 라이딩", "b", "s", "pending", Option.none, Option.none, Option.none⟩],
         [⟨1, "alice", "alice@example.com", 0, 0, 1, false⟩], []⟩
        9 5 (some "verified") "안전 장비 착용 확인됨").2.users 1 =
      some ⟨1, "alice", "alice@example.com", 0, 10, 1, false⟩ ∧
    (verify_bike_log
        ⟨[⟨5, 1, "한강 라이딩", "b", "s", "pending", Option.none, Option.none, Option.none⟩],
         [⟨1, "alice", "alice@example.com", 0, 0, 1, false⟩], []⟩
        9 5 (some "verified") "안전 장비 착용 확인됨").2.rewards =
      [⟨1, "bike_usage", some 5, 0, 10, some "자전거 활동", some "completed"⟩] ∧
    verify_bike_log
        ⟨[⟨5, 1, "한강 라이딩", "b", "s", "verified", some 9, some "메모", some 10⟩],
         [⟨1, "alice", "alice@example.com", 0, 10, 1, false⟩], []⟩
        9 5 (some "verified") "" =
      (.badRequest "bike log already processed",
        ⟨[⟨5, 1, "한강 라이딩", "b", "s", "verified", some 9, some "메모", some 10⟩],
         [⟨1, "alice", "alice@example.com", 0, 10, 1, false⟩], []⟩) := by
  have h1 := (bike_verify_rewards_once
      ⟨[⟨5, 1, "한강 라이딩", "b", "s", "pending", Option.none, Option.none, Option.none⟩],
       [⟨1, "alice", "alice@example.com", 0, 0, 1, false⟩], []⟩
      9 5 ⟨5, 1, "한강 라이딩", "b", "s", "pending", Option.none, Option.none, Option.none⟩
      ⟨1, "alice", "alice@example.com", 0, 0, 1, false⟩ "안전 장비 착용 확인됨").1
      (by decide) rfl (by decide)
  have h2 := (bike_verify_rewards_once
      ⟨[⟨5, 1, "한강 라이딩", "b", "s", "verified", some 9, some "메모", some 10⟩],
       [⟨1, "alice", "alice@example.com", 0, 10, 1, false⟩], []⟩
      9 5 ⟨5, 1, "한강 라이딩", "b", "s", "verified", some 9, some "메모", some 10⟩
      ⟨1, "alice", "alice@example.com", 0, 10, 1, false⟩ "").2
      (some "verified") (Or.inl rfl) (by decide) (by decide)
  exact ⟨h1.1, h1.2.1.trans (by decide), h1.2.2, h2⟩

/-- C4 amended: the score endpoint clamps — the stored counter becomes
`max(0, old + delta)` and the 200 payload reports that value — but the level
endpoint does not: it stores `old + delta` as is (with the recomputed level),
so a negative delta larger than the balance leaves a negative counter. -/
theorem score_update_clamps_level_update_does_not (users : List UserRow)
    (rewards : List RewardRow) (levels : List UserLevelRow) (uid : Nat) (c : Int)
    (r : Option String) (u : UserRow) (hu : findUser users uid = some u) :
    (update_user_score users rewards uid c r).1 =
      .ok (max 0 (u.experience_points + c)) ∧
    findUser (update_user_score users rewards uid c r).2.1 uid =
      some { u with experience_points := max 0 (u.experience_points + c) } ∧
    (update_user_level users levels uid c).1 =
      .ok ((levelFor levels (u.experience_points + c)).getD 1) (u.experience_points + c)
        (decide (u.level < (levelFor levels (u.experience_points + c)).getD 1)) ∧
    findUser (update_user_level users levels uid c).2 uid =
      some { u with experience_points := u.experience_points + c,
                    level := (levelFor levels (u.experience_points + c)).getD 1 } := by
  have hu' : List.find? (fun v => v.id == uid) users = some u := hu
  have hs : List.find? (fun v => v.id == uid)
      (users.map (fun v => if v.id == uid then
        { v with experience_points := max 0 (v.experience_points + c) } else v)) =
      (List.find? (fun v => v.id == uid) users).map
        (fun v => { v with experience_points := max 0 (v.experience_points + c) }) :=
    find?_map_pred users _ _ (fun a => rfl)
  have hl : List.find? (fun v => v.id == uid)
      (users.map (fun v => if v.id == uid then
        { v with experience_points := u.experience_points + c,
                 level := (levelFor levels (u.experience_points + c)).getD 1 } else v)) =
      (List.find? (fun v => v.id == uid) users).map
        (fun v => { v with experience_points := u.experience_points + c,
                           level := (levelFor levels (u.experience_points + c)).getD 1 }) :=
    find?_map_pred users _ _ (fun a => rfl)
  refine ⟨?_, ?_, ?_, ?_⟩
  · simp [update_user_score, hu]
  · simp only [update_user_score, hu]
    rw [findUser, hs, hu']
    rfl
  · simp [update_user_level, hu]
  · simp only [update_user_level, hu]
    rw [findUser, hl, hu']
    rfl

/-- Closed witness for `score_update_clamps_level_update_does_not`: with a
balance of 3, a delta of −5 leaves 0 through the score endpoint but −2
through the level endpoint. -/
theorem score_update_clamps_level_update_does_not_witness :
    (update_user_score [⟨1, "alice", "alice@example.com", 0, 3, 1, false⟩] [] 1 (-5)
      Option.none).1 = .ok 0 ∧
    (update_user_level [⟨1, "alice", "alice@example.com", 0, 3, 1, false⟩] [⟨1, 0⟩] 1
      (-5)).1 = .ok 1 (-2) false := by
  have h := score_update_clamps_level_update_does_not
      [⟨1, "alice", "alice@example.com", 0, 3, 1, false⟩] [] [⟨1, 0⟩] 1 (-5)
      Option.none ⟨1, "alice", "alice@example.com", 0, 3, 1, false⟩ (by decide)
  exact ⟨h.1.trans (by decide), h.2.2.1.trans (by decide)⟩

/-- C7 amended: every response built through `make_response` is the uniform
`{code, message, data}` envelope — `code` the HTTP status, `message` its
standard phrase, `data` always an array (empty for `None`, a singleton for a
single object, the list itself for a list) — but the admin CSV export
endpoint bypasses `make_response` and returns a raw `text/csv` response. -/
theorem make_response_envelope {α : Type} (d : HandlerData α) (code : Nat)
    (m : String) (a : α) (l : List α) (hm : statusPhrase code = some m) :
    make_response d code = .json ⟨code, m, wrapData d⟩ code ∧
    wrapData (HandlerData.none : HandlerData α) = ([] : List α) ∧
    wrapData (HandlerData.single a) = [a] ∧
    wrapData (HandlerData.list l) = l ∧
    isEnvelope (export_course_recommendations Option.none []) = false := by
  refine ⟨?_, rfl, rfl, rfl, rfl⟩
  simp [make_response, hm]

/-- Closed witness for `make_response_envelope` at a concrete payload. -/
theorem make_response_envelope_witness :
    make_response (HandlerData.single "한강 라이딩") 201 =
      .json ⟨201, "Created", ["한강 라이딩"]⟩ 201 :=
  (make_response_envelope (HandlerData.single "한강 라이딩") 201 "Created"
      "한강 라이딩" [] rfl).1

/-- `find?` on the posts table after a `likes_count` UPDATE, stated with the
propositional `if` that the simplifier produces. -/
theorem find?_map_ite_post (posts : List PostRow) (pid : Nat) (d : Int) :
    List.find? (fun q => q.id == pid)
      (posts.map (fun q => if q.id = pid then
        { q with likes_count := q.likes_count + d } else q)) =
      (List.find? (fun q => q.id == pid) posts).map
        (fun q => { q with likes_count := q.likes_count + d }) := by
  induction posts with
  | nil => rfl
  | cons a as ih =>
    by_cases h : a.id = pid
    · have hb : (a.id == pid) = true := by simp [h]
      simp [List.find?, h, hb]
    · have hb : (a.id == pid) = false := by simp [h]
      simp [List.find?, h, hb, ih]

/-- One toggle by a user who has not liked the post leaves the state with
the pair row appended and the post's `likes_count` incremented. -/
theorem toggle_like_state_not_liked (db : CommunityDB) (uid pid : Nat)
    (hno : db.likes.any (fun l => l.post_id == pid && l.user_id == uid) = false) :
    (toggle_like db uid pid).2 =
      { db with
        likes := db.likes ++ [⟨pid, uid⟩],
        posts := db.posts.map (fun q =>
          if q.id == pid then { q with likes_count := q.likes_count + 1 } else q) } := by
  simp [toggle_like, hno]

/-- One toggle by a user who has liked the post leaves the state with the
pair rows deleted and the post's `likes_count` decremented. -/
theorem toggle_like_state_liked (db : CommunityDB) (uid pid : Nat)
    (hyes : db.likes.any (fun l => l.post_id == pid && l.user_id == uid) = true) :
    (toggle_like db uid pid).2 =
      { db with
        likes := db.likes.filter (fun l => !(l.post_id == pid && l.user_id == uid)),
        posts := db.posts.map (fun q =>
          if q.id == pid then { q with likes_count := q.likes_count + -1 } else q) } := by
  simp [toggle_like, hyes]

/-- One toggle by a user who has not liked an existing post reports
`liked = true` and the incremented count. -/
theorem toggle_like_result_not_liked (db : CommunityDB) (uid pid : Nat) (p : PostRow)
    (hno : db.likes.any (fun l => l.post_id == pid && l.user_id == uid) = false)
    (hfind : db.posts.find? (fun q => q.id == pid) = some p) :
    (toggle_like db uid pid).1 = some (true, p.likes_count + 1) := by
  have hmap : List.find? (fun q => q.id == pid)
      (db.posts.map (fun q => if q.id == pid then
        { q with likes_count := q.likes_count + 1 } else q)) =
      (List.find? (fun q => q.id == pid) db.posts).map
        (fun q => { q with likes_count := q.likes_count + 1 }) :=
    find?_map_pred _ _ _ (fun a => rfl)
  have hp : (p.id == pid) = true := by
    have h := List.find?_some hfind
    exact h
  simp [toggle_like, hno, -List.find?_map, find?_map_ite_post, hfind, hp]

/-- One toggle by a user who has liked an existing post reports
`liked = false` and the decremented count. -/
theorem toggle_like_result_liked (db : CommunityDB) (uid pid : Nat) (p : PostRow)
    (hyes : db.likes.any (fun l => l.post_id == pid && l.user_id == uid) = true)
    (hfind : db.posts.find? (fun q => q.id == pid) = some p) :
    (toggle_like db uid pid).1 = some (false, p.likes_count + -1) := by
  have hmap : List.find? (fun q => q.id == pid)
      (db.posts.map (fun q => if q.id == pid then
        { q with likes_count := q.likes_count + -1 } else q)) =
      (List.find? (fun q => q.id == pid) db.posts).map
        (fun q => { q with likes_count := q.likes_count + -1 }) :=
    find?_map_pred _ _ _ (fun a => rfl)
  have hp : (p.id == pid) = true := by
    have h := List.find?_some hfind
    exact h
  simp [toggle_like, hyes, -List.find?_map, find?_map_ite_post, hfind, hp]

/-- C9: for a user who has not yet liked an existing post, the first toggle
inserts the `(user, post)` row and reports `likes_count + 1`, the second
toggle deletes it and reports the original count, restoring both the posts
table and the likes table; and a toggle keeps every `(user, post)` pair at
one like row at most. -/
theorem like_toggle_pair_noop (db : CommunityDB) (uid pid uid2 pid2 : Nat)
    (p : PostRow) :
    (db.posts.find? (fun q => q.id == pid) = some p →
      db.likes.any (fun l => l.post_id == pid && l.user_id == uid) = false →
      (toggle_like db uid pid).1 = some (true, p.likes_count + 1) ∧
      (toggle_like db uid pid).2.likes = db.likes ++ [⟨pid, uid⟩] ∧
      (toggle_like (toggle_like db uid pid).2 uid pid).1 = some (false, p.likes_count) ∧
      (toggle_like (toggle_like db uid pid).2 uid pid).2.posts = db.posts ∧
      (toggle_like (toggle_like db uid pid).2 uid pid).2.likes = db.likes) ∧
    (likeCount db.likes uid2 pid2 ≤ 1 →
      likeCount (toggle_like db uid pid).2.likes uid2 pid2 ≤ 1) := by
  constructor
  · intro hfind hno
    have hp : (p.id == pid) = true := by
      have h := List.find?_some hfind
      exact h
    have hs1 := toggle_like_state_not_liked db uid pid hno
    have hr1 := toggle_like_result_not_liked db uid pid p hno hfind
    have hmap1 : List.find? (fun q => q.id == pid)
        (db.posts.map (fun q => if q.id == pid then
          { q with likes_count := q.likes_count + 1 } else q)) =
        (List.find? (fun q => q.id == pid) db.posts).map
          (fun q => { q with likes_count := q.likes_count + 1 }) :=
      find?_map_pred _ _ _ (fun a => rfl)
    rw [hs1]
    have hyes2 : (((db.likes ++ [(⟨pid, uid⟩ : LikeRow)])).any
        (fun l => l.post_id == pid && l.user_id == uid)) = true := by
      simp [List.any_append]
    have hfind2 : (db.posts.map (fun q => if q.id == pid then
        { q with likes_count := q.likes_count + 1 } else q)).find?
          (fun q => q.id == pid) =
        some { p with likes_count := p.likes_count + 1 } := by
      rw [hmap1, hfind]
      rfl
    have hr2 := toggle_like_result_liked
        { db with
          likes := db.likes ++ [⟨pid, uid⟩],
          posts := db.posts.map (fun q =>
            if q.id == pid then { q with likes_count := q.likes_count + 1 } else q) }
        uid pid { p with likes_count := p.likes_count + 1 } hyes2 hfind2
    have hs2 := toggle_like_state_liked
        { db with
          likes := db.likes ++ [⟨pid, uid⟩],
          posts := db.posts.map (fun q =>
            if q.id == pid then { q with likes_count := q.likes_count + 1 } else q) }
        uid pid hyes2
    refine ⟨hr1, rfl, ?_, ?_, ?_⟩
    · rw [hr2]
      have : p.likes_count + 1 + -1 = p.likes_count := by ring
      simp [this]
    · rw [hs2]
      exact posts_update_roundtrip db.posts pid 1 (-1) (by decide)
    · rw [hs2]
      show ((db.likes ++ [(⟨pid, uid⟩ : LikeRow)]).filter
          (fun l => !(l.post_id == pid && l.user_id == uid))) = db.likes
      rw [List.filter_append, filter_not_of_any_eq_false db.likes _ hno]
      simp
  · intro hle
    by_cases hex : db.likes.any (fun l => l.post_id == pid && l.user_id == uid) = true
    · rw [toggle_like_state_liked db uid pid hex]
      calc likeCount (db.likes.filter
              (fun l => !(l.post_id == pid && l.user_id == uid))) uid2 pid2
          ≤ likeCount db.likes uid2 pid2 :=
            List.Sublist.length_le
              (List.Sublist.filter _ (List.filter_sublist db.likes))
        _ ≤ 1 := hle
    · have hno : db.likes.any (fun l => l.post_id == pid && l.user_id == uid) = false := by
        simpa using hex
      rw [toggle_like_state_not_liked db uid pid hno]
      show likeCount (db.likes ++ [(⟨pid, uid⟩ : LikeRow)]) uid2 pid2 ≤ 1
      unfold likeCount
      rw [List.filter_append, List.length_append]
      by_cases hx : (((⟨pid, uid⟩ : LikeRow).post_id == pid2) &&
          ((⟨pid, uid⟩ : LikeRow).user_id == uid2)) = true
      · have hpair : pid = pid2 ∧ uid = uid2 := by simpa using hx
        obtain ⟨hp1, hp2⟩ := hpair
        subst hp1
        subst hp2
        have hzero : List.filter (fun l => l.post_id == pid && l.user_id == uid)
            db.likes = [] := filter_eq_nil_of_any_eq_false _ _ hno
        rw [hzero]
        have hone : (List.filter (fun l => l.post_id == pid && l.user_id == uid)
            [(⟨pid, uid⟩ : LikeRow)]).length ≤ 1 := List.length_filter_le _ _
        simp
      · have hxf : (((⟨pid, uid⟩ : LikeRow).post_id == pid2) &&
            ((⟨pid, uid⟩ : LikeRow).user_id == uid2)) = false := by
          simpa using hx
        have hnil : List.filter (fun l => l.post_id == pid2 && l.user_id == uid2)
            [(⟨pid, uid⟩ : LikeRow)] = [] := by
          simp [List.filter_cons, hxf]
        rw [hnil]
        simpa [likeCount] using hle

/-- Closed witness for `like_toggle_pair_noop`: post 1 starts with 3 likes;
user 7 toggles twice, seeing 4 then 3, with all tables restored. -/
theorem like_toggle_pair_noop_witness :
    (toggle_like ⟨[⟨1, 2, "t", "c", "general", 3, 0⟩], [], [], [], []⟩ 7 1).1 =
      some (true, 4) ∧
    (toggle_like (toggle_like ⟨[⟨1, 2, "t", "c", "general", 3, 0⟩], [], [], [], []⟩
      7 1).2 7 1).1 = some (false, 3) ∧
    (toggle_like (toggle_like ⟨[⟨1, 2, "t", "c", "general", 3, 0⟩], [], [], [], []⟩
      7 1).2 7 1).2.posts = [⟨1, 2, "t", "c", "general", 3, 0⟩] ∧
    (toggle_like (toggle_like ⟨[⟨1, 2, "t", "c", "general", 3, 0⟩], [], [], [], []⟩
      7 1).2 7 1).2.likes = [] ∧
    likeCount (toggle_like ⟨[⟨1, 2, "t", "c", "general", 3, 0⟩], [], [], [], []⟩
      7 1).2.likes 7 1 ≤ 1 := by
  have h := like_toggle_pair_noop ⟨[⟨1, 2, "t", "c", "general", 3, 0⟩], [], [], [], []⟩
      7 1 7 1 ⟨1, 2, "t", "c", "general", 3, 0⟩
  have h1 := h.1 (by decide) (by decide)
  exact ⟨h1.1.trans (by decide), h1.2.2.1, h1.2.2.2.1, h1.2.2.2.2, h.2 (by decide)⟩

end LikeBike
